import Mathlib

/-!
# Verification of the sexto-andar-api proposal/visit lifecycle and auth delegation

Shallow embedding of the core of the `sexto-andar-api` backend:

* the Proposal and Visit lifecycle (services in `app/services/proposal_service.py`
  and `app/services/visit_service.py`, repositories in
  `app/repositories/proposal_repository.py` and `app/repositories/visit_repository.py`),
* the remote authentication delegation (`app/clients/auth_client.py`,
  `app/auth/dependencies.py`),
* the internal relation-check endpoint (`app/controllers/internal_controller.py`),
* the DTO-level visit-date validation (`app/dtos/visit_dto.py`), and
* the best-effort user-info enrichment loop of the owner listing endpoints
  (`app/auth/auth_client.py`, `app/controllers/visit_controller.py`).

Identifiers are modelled as `Nat`, timestamps as `Int` (only order matters),
monetary values as `Int` (the code uses exact decimals; only positivity matters
here).  Database tables are Lean lists; the per-request ORM session is explicit
state passing: a service step returns `Except Err (DB × ...)`, where an `error`
result means the request aborted with an HTTP error and no commit happened.
-/

namespace SextoAndar

/-- HTTP-style error raised by the services (mirrors FastAPI `HTTPException`). -/
structure Err where
  statusCode : Nat
  detail : String
  deriving Repr, DecidableEq

/-! ## Data model

`app/models/proposal.py` and `app/models/visit.py` are referenced throughout the
repository (`app/models/__init__.py` imports them) but their sources are not in
the snapshot; their fields and methods are modelled from the spec, as flagged on
each definition. `app/models/property.py` is likewise reduced to the two fields
the core consumes (`id`, `idPropertyOwner`). -/

/-- Modelled from the spec: `ProposalStatusEnum` of `app/models/proposal.py`
(missing from the snapshot). States `PENDING / ACCEPTED / REJECTED / WITHDRAWN`;
the string values are the lowercase forms shown by the DTO examples in
`app/dtos/proposal_dto.py` ("pending", ...). -/
inductive ProposalStatusEnum where
  | pending
  | accepted
  | rejected
  | withdrawn
  deriving Repr, DecidableEq

/-- The string value of a status, as used by `ProposalStatusEnum(status)`. -/
def ProposalStatusEnum.value : ProposalStatusEnum → String
  | .pending => "pending"
  | .accepted => "accepted"
  | .rejected => "rejected"
  | .withdrawn => "withdrawn"

/-- Python `ProposalStatusEnum(status)`: value lookup, `ValueError` when the
string names no member (modelled as `none`). -/
def parseProposalStatus (s : String) : Option ProposalStatusEnum :=
  if s = "pending" then some .pending
  else if s = "accepted" then some .accepted
  else if s = "rejected" then some .rejected
  else if s = "withdrawn" then some .withdrawn
  else none

/-- Modelled from the spec: the `Proposal` model of `app/models/proposal.py`
(missing from the snapshot).  Fields follow §3 of the spec and the
`ProposalResponse` DTO: requester (`idUser`), property (`idProperty`), value,
creation date, status, response message/date and `expires_at = creation + 30d`. -/
structure Proposal where
  id : Nat
  idProperty : Nat
  idUser : Nat
  proposalValue : Int
  proposalDate : Int
  status : ProposalStatusEnum
  message : Option String
  response_message : Option String
  response_date : Option Int
  expires_at : Int
  deriving Repr, DecidableEq

/-- Fixed proposal TTL (spec: `expires_at = now + 30 days`), in seconds. -/
def proposalTTL : Int := 30 * 24 * 60 * 60

/-- Modelled from the spec: `Proposal.accept` (model method missing from the
snapshot; `ProposalService.accept_proposal` calls it and maps its `ValueError`
to HTTP 400).  Spec §4.3: only from `PENDING`; a proposal whose `expires_at`
lies before `now` is treated as not pending (expiry checked at transition time);
on success the status becomes `ACCEPTED` and `response_date = now`. -/
def Proposal.accept (p : Proposal) (now : Int) (msg : Option String) :
    Except String Proposal :=
  if p.status ≠ .pending then
    .error "Only pending proposals can be accepted"
  else if p.expires_at < now then
    .error "Proposal has expired"
  else
    .ok { p with
          status := .accepted
          response_message := msg
          response_date := some now }

/-- Modelled from the spec: `Proposal.reject`, symmetric to `Proposal.accept`. -/
def Proposal.reject (p : Proposal) (now : Int) (msg : Option String) :
    Except String Proposal :=
  if p.status ≠ .pending then
    .error "Only pending proposals can be rejected"
  else if p.expires_at < now then
    .error "Proposal has expired"
  else
    .ok { p with
          status := .rejected
          response_message := msg
          response_date := some now }

/-- Modelled from the spec: `Proposal.withdraw` — only from `PENDING` (spec §4.3
lists the expiry guard for accept/reject only). -/
def Proposal.withdraw (p : Proposal) : Except String Proposal :=
  if p.status ≠ .pending then
    .error "Only pending proposals can be withdrawn"
  else
    .ok { p with status := .withdrawn }

/-- Modelled from the spec: the `Visit` model of `app/models/visit.py` (missing
from the snapshot).  Field names follow the `VisitResponse` DTO of
`app/dtos/visit_dto.py` (`isVisitCompleted`, `cancelled`, ...). -/
structure Visit where
  id : Nat
  idProperty : Nat
  idUser : Nat
  visitDate : Int
  isVisitCompleted : Bool
  cancelled : Bool
  notes : Option String
  cancellation_reason : Option String
  deriving Repr, DecidableEq

/-- Modelled from the spec: `Visit.reschedule` — sets the new date (the terminal
-state guards are enforced by `VisitService.update_visit` before this call). -/
def Visit.reschedule (v : Visit) (newDate : Int) : Visit :=
  { v with visitDate := newDate }

/-- Modelled from the spec: `Visit.complete_visit` (called by
`VisitService.complete_visit`, which maps its `ValueError` to HTTP 400).
Spec §4.3: only from `SCHEDULED`; fails if already completed or cancelled;
sets `is_completed = true` and records the notes. -/
def Visit.complete_visit (v : Visit) (notes : Option String) :
    Except String Visit :=
  if v.isVisitCompleted then
    .error "Visit is already completed"
  else if v.cancelled then
    .error "Cannot complete a cancelled visit"
  else
    .ok { v with
          isVisitCompleted := true
          notes := match notes with
            | some n => some n
            | none => v.notes }

/-- Modelled from the spec: `Visit.cancel_visit`, symmetric to
`Visit.complete_visit`; sets `is_cancelled = true` and records the reason. -/
def Visit.cancel_visit (v : Visit) (reason : Option String) :
    Except String Visit :=
  if v.isVisitCompleted then
    .error "Cannot cancel a completed visit"
  else if v.cancelled then
    .error "Visit is already cancelled"
  else
    .ok { v with cancelled := true, cancellation_reason := reason }

/-- The slice of `app/models/property.py` the core consumes: id and owner. -/
structure Property where
  id : Nat
  idPropertyOwner : Nat
  deriving Repr, DecidableEq

/-- The relational store visible to the core: one list per table. -/
structure DB where
  properties : List Property
  proposals : List Proposal
  visits : List Visit
  deriving Repr, DecidableEq

/-! ## Repository layer (from `app/repositories/*.py`) -/

/-- `ProposalRepository.get_property_owner_id` /
`VisitRepository.get_property_owner_id`: first `Property` row with the id,
its owner, else `None`. -/
def getPropertyOwnerId (db : DB) (propertyId : Nat) : Option Nat :=
  (db.properties.find? (fun pr => pr.id == propertyId)).map (·.idPropertyOwner)

/-- `ProposalRepository.check_duplicate_proposal`: some row with the same
user, property and `PENDING` status exists. -/
def check_duplicate_proposal (db : DB) (userId propertyId : Nat) : Bool :=
  db.proposals.any fun p =>
    p.idUser == userId && p.idProperty == propertyId &&
      p.status == ProposalStatusEnum.pending

/-- `ProposalRepository.get_by_id`. -/
def getProposalById (db : DB) (proposalId : Nat) : Option Proposal :=
  db.proposals.find? (fun p => p.id == proposalId)

/-- `VisitRepository.get_by_id`. -/
def getVisitById (db : DB) (visitId : Nat) : Option Visit :=
  db.visits.find? (fun v => v.id == visitId)

/-- `ProposalRepository.create` / `VisitRepository.create`: `session.add` +
commit, i.e. the row is appended. -/
def insertProposal (db : DB) (p : Proposal) : DB :=
  { db with proposals := db.proposals ++ [p] }

/-- `VisitRepository.create`. -/
def insertVisit (db : DB) (v : Visit) : DB :=
  { db with visits := db.visits ++ [v] }

/-- Committing a mutated `Proposal` row (`ProposalRepository.update`): the row
with the same id is replaced. -/
def commitProposal (db : DB) (p : Proposal) : DB :=
  { db with proposals := db.proposals.map fun q => if q.id == p.id then p else q }

/-- Committing a mutated `Visit` row (`VisitRepository.update`). -/
def commitVisit (db : DB) (v : Visit) : DB :=
  { db with visits := db.visits.map fun w => if w.id == v.id then v else w }

/-- `VisitRepository.delete` / `ProposalRepository.delete`: hard delete. -/
def deleteVisitRow (db : DB) (v : Visit) : DB :=
  { db with visits := db.visits.filter fun w => !(w == v) }

/-- `VisitRepository.check_visit_conflict`: a non-cancelled visit at the same
property and timestamp, optionally excluding one visit id. -/
def check_visit_conflict (db : DB) (propertyId : Nat) (visitDate : Int)
    (excludeVisitId : Option Nat) : Bool :=
  db.visits.any fun v =>
    v.idProperty == propertyId && v.visitDate == visitDate && !v.cancelled &&
      (match excludeVisitId with
       | some ex => !(v.id == ex)
       | none => true)

/-! ## Proposal listing queries (`ProposalRepository.get_by_*`)

Each builds a filtered query, optionally narrows by a status string (an invalid
or empty string leaves the query untouched: `if status:` is false on `""`, and
`ProposalStatusEnum(status)` raising `ValueError` is swallowed by `pass`),
counts the total, orders by `proposalDate` descending and paginates with
`offset ((page-1)*size)` and `limit size`. -/

/-- `ORDER BY proposalDate DESC` (insertion sort; only the pipeline structure
matters for the theorems below). -/
def sortByDateDesc (ps : List Proposal) : List Proposal :=
  let rec insert (p : Proposal) : List Proposal → List Proposal
    | [] => [p]
    | q :: qs => if p.proposalDate ≥ q.proposalDate then p :: q :: qs
                 else q :: insert p qs
  ps.foldr insert []

/-- The optional status narrowing shared by the three listing queries:
`if status:` then try `ProposalStatusEnum(status)`, ignoring `ValueError`. -/
def applyStatusFilter (q : List Proposal) (status : Option String) :
    List Proposal :=
  match status with
  | none => q
  | some s =>
    if s = "" then q
    else
      match parseProposalStatus s with
      | some st => q.filter (fun p => p.status == st)
      | none => q

/-- Count, then order and paginate (the shared tail of the three queries). -/
def paginateProposals (q : List Proposal) (page size : Nat) :
    List Proposal × Nat :=
  ((sortByDateDesc q).drop ((page - 1) * size) |>.take size, q.length)

/-- `ProposalRepository.get_by_user`. -/
def get_by_user (db : DB) (userId : Nat) (page size : Nat)
    (status : Option String) : List Proposal × Nat :=
  let q := db.proposals.filter (fun p => p.idUser == userId)
  paginateProposals (applyStatusFilter q status) page size

/-- `ProposalRepository.get_by_property`. -/
def get_by_property (db : DB) (propertyId : Nat) (page size : Nat)
    (status : Option String) : List Proposal × Nat :=
  let q := db.proposals.filter (fun p => p.idProperty == propertyId)
  paginateProposals (applyStatusFilter q status) page size

/-- `ProposalRepository.get_by_property_owner`: inner join with `Property` on
`idProperty = Property.id`, filtered on `Property.idPropertyOwner`. -/
def get_by_property_owner (db : DB) (ownerId : Nat) (page size : Nat)
    (status : Option String) : List Proposal × Nat :=
  let q := db.proposals.filter fun p =>
    db.properties.any (fun pr => pr.id == p.idProperty &&
      pr.idPropertyOwner == ownerId)
  paginateProposals (applyStatusFilter q status) page size

/-! ## Proposal service (`app/services/proposal_service.py`)

Each operation returns `Except Err (DB × Proposal)`; an `error` result mirrors
a raised `HTTPException` — the request aborts and the session is never
committed, so the store is unchanged. -/

/-- `CreateProposalRequest` (`app/dtos/proposal_dto.py`). -/
structure CreateProposalRequest where
  idProperty : Nat
  proposalValue : Int
  message : Option String
  deriving Repr, DecidableEq

/-- `ProposalService.create_proposal`.  `now` is the server clock and `newId`
the id the ORM assigns; the fresh row is `PENDING` with
`expires_at = now + 30 days` (creation defaults modelled from the spec, the
model file being absent from the snapshot). -/
def create_proposal (db : DB) (proposalData : CreateProposalRequest)
    (userId : Nat) (now : Int) (newId : Nat) : Except Err (DB × Proposal) :=
  match getPropertyOwnerId db proposalData.idProperty with
  | none => .error ⟨404, "Property not found"⟩
  | some ownerId =>
    if ownerId = userId then
      .error ⟨400, "You cannot make a proposal on your own property"⟩
    else if check_duplicate_proposal db userId proposalData.idProperty then
      .error ⟨409, "You already have a pending proposal for this property"⟩
    else
      let proposal : Proposal :=
        { id := newId
          idProperty := proposalData.idProperty
          idUser := userId
          proposalValue := proposalData.proposalValue
          proposalDate := now
          status := .pending
          message := proposalData.message
          response_message := none
          response_date := none
          expires_at := now + proposalTTL }
      .ok (insertProposal db proposal, proposal)

/-- `ProposalService.accept_proposal`: 404 when absent, 403 when the caller is
not the resolved owner of the referenced property, 400 when the model method
raises `ValueError`. -/
def accept_proposal (db : DB) (proposalId ownerId : Nat) (now : Int)
    (responseMessage : Option String) : Except Err (DB × Proposal) :=
  match getProposalById db proposalId with
  | none => .error ⟨404, "Proposal not found"⟩
  | some proposal =>
    if getPropertyOwnerId db proposal.idProperty ≠ some ownerId then
      .error ⟨403, "Only the property owner can accept proposals"⟩
    else
      match proposal.accept now responseMessage with
      | .error e => .error ⟨400, e⟩
      | .ok p => .ok (commitProposal db p, p)

/-- `ProposalService.reject_proposal`. -/
def reject_proposal (db : DB) (proposalId ownerId : Nat) (now : Int)
    (responseMessage : Option String) : Except Err (DB × Proposal) :=
  match getProposalById db proposalId with
  | none => .error ⟨404, "Proposal not found"⟩
  | some proposal =>
    if getPropertyOwnerId db proposal.idProperty ≠ some ownerId then
      .error ⟨403, "Only the property owner can reject proposals"⟩
    else
      match proposal.reject now responseMessage with
      | .error e => .error ⟨400, e⟩
      | .ok p => .ok (commitProposal db p, p)

/-- `ProposalService.withdraw_proposal`: only the requester may withdraw. -/
def withdraw_proposal (db : DB) (proposalId userId : Nat) :
    Except Err (DB × Proposal) :=
  match getProposalById db proposalId with
  | none => .error ⟨404, "Proposal not found"⟩
  | some proposal =>
    if proposal.idUser ≠ userId then
      .error ⟨403, "You can only withdraw your own proposals"⟩
    else
      match proposal.withdraw with
      | .error e => .error ⟨400, e⟩
      | .ok p => .ok (commitProposal db p, p)

/-! ## Visit DTOs and service (`app/dtos/visit_dto.py`, `app/services/visit_service.py`) -/

/-- `CreateVisitRequest` after pydantic field validation. -/
structure CreateVisitRequest where
  idProperty : Nat
  visitDate : Int
  notes : Option String
  deriving Repr, DecidableEq

/-- `CreateVisitRequest.validate_visit_date` (`app/dtos/visit_dto.py`):
`if v < datetime.now(): raise ValueError(...)`, otherwise the value passes. -/
def validate_visit_date (v now : Int) : Except String Int :=
  if v < now then .error "Visit date must be in the future" else .ok v

/-- `UpdateVisitRequest`. -/
structure UpdateVisitRequest where
  visitDate : Option Int
  notes : Option String
  deriving Repr, DecidableEq

/-- `VisitService.create_visit`: 404 when the property is absent (the advisory
conflict check is commented out in the source), then a `SCHEDULED` visit row
(both flags false) is inserted. -/
def create_visit (db : DB) (visitData : CreateVisitRequest) (userId : Nat)
    (newId : Nat) : Except Err (DB × Visit) :=
  match getPropertyOwnerId db visitData.idProperty with
  | none => .error ⟨404, "Property not found"⟩
  | some _ =>
    let visit : Visit :=
      { id := newId
        idProperty := visitData.idProperty
        idUser := userId
        visitDate := visitData.visitDate
        isVisitCompleted := false
        cancelled := false
        notes := visitData.notes
        cancellation_reason := none }
    .ok (insertVisit db visit, visit)

/-- The visit-creation pipeline as the endpoint sees it: pydantic validates
`visitDate` against the wall clock before `VisitService.create_visit` runs, so
a rejected date aborts with 422 and no row is inserted. -/
def create_visit_endpoint (db : DB) (idProperty : Nat) (visitDate : Int)
    (notes : Option String) (userId : Nat) (now : Int) (newId : Nat) :
    Except Err (DB × Visit) :=
  match validate_visit_date visitDate now with
  | .error e => .error ⟨422, e⟩
  | .ok d => create_visit db ⟨idProperty, d, notes⟩ userId newId

/-- The `if update_data.notes is not None: visit.notes = update_data.notes`
step of `VisitService.update_visit`. -/
def applyNotes (v : Visit) (notes : Option String) : Visit :=
  match notes with
  | some n => { v with notes := some n }
  | none => v

/-- `VisitService.update_visit`: 404 when absent, 403 when the caller is not
the requester, 400 when the visit is completed or cancelled; then an optional
reschedule (with the 409 conflict guard when the date actually changes) and an
optional notes update are committed. -/
def update_visit (db : DB) (visitId : Nat) (updateData : UpdateVisitRequest)
    (userId : Nat) : Except Err (DB × Visit) :=
  match getVisitById db visitId with
  | none => .error ⟨404, "Visit not found"⟩
  | some visit =>
    if visit.idUser ≠ userId then
      .error ⟨403, "You can only update your own visits"⟩
    else if visit.isVisitCompleted then
      .error ⟨400, "Cannot update completed visit"⟩
    else if visit.cancelled then
      .error ⟨400, "Cannot update cancelled visit"⟩
    else
      match updateData.visitDate with
      | some newDate =>
        if newDate ≠ visit.visitDate ∧
            check_visit_conflict db visit.idProperty newDate (some visitId) then
          .error ⟨409, "Another visit is already scheduled at this time"⟩
        else
          .ok (commitVisit db (applyNotes (visit.reschedule newDate) updateData.notes),
               applyNotes (visit.reschedule newDate) updateData.notes)
      | none =>
        .ok (commitVisit db (applyNotes visit updateData.notes),
             applyNotes visit updateData.notes)

/-- `VisitService.complete_visit`: 404 / 403, then the model method's
`ValueError` maps to 400, else the completed visit is committed. -/
def complete_visit_service (db : DB) (visitId userId : Nat)
    (notes : Option String) : Except Err (DB × Visit) :=
  match getVisitById db visitId with
  | none => .error ⟨404, "Visit not found"⟩
  | some visit =>
    if visit.idUser ≠ userId then
      .error ⟨403, "You can only complete your own visits"⟩
    else
      match visit.complete_visit notes with
      | .error e => .error ⟨400, e⟩
      | .ok v => .ok (commitVisit db v, v)

/-- `VisitService.cancel_visit`. -/
def cancel_visit_service (db : DB) (visitId userId : Nat)
    (reason : Option String) : Except Err (DB × Visit) :=
  match getVisitById db visitId with
  | none => .error ⟨404, "Visit not found"⟩
  | some visit =>
    if visit.idUser ≠ userId then
      .error ⟨403, "You can only cancel your own visits"⟩
    else
      match visit.cancel_visit reason with
      | .error e => .error ⟨400, e⟩
      | .ok v => .ok (commitVisit db v, v)

/-- `VisitService.delete_visit`: 404 / 403, then a hard delete. -/
def delete_visit_service (db : DB) (visitId userId : Nat) : Except Err DB :=
  match getVisitById db visitId with
  | none => .error ⟨404, "Visit not found"⟩
  | some visit =>
    if visit.idUser ≠ userId then
      .error ⟨403, "You can only delete your own visits"⟩
    else
      .ok (deleteVisitRow db visit)

/-! ## Remote token verification (`app/clients/auth_client.py`,
`app/auth/dependencies.py`)

The outcome of the outbound `httpx` call is a free parameter: either an HTTP
response (status code plus parsed JSON body) or one of the exception classes
the client catches. -/

/-- The introspection response body the auth service returns (`active`,
optional `reason`, and the claims map reduced to the one field the dependency
reads, `claims["sub"]`). -/
structure IntrospectBody where
  active : Bool
  reason : Option String
  claimsSub : Option String
  deriving Repr, DecidableEq

/-- Outcome of the outbound POST to `/api/v1/auth/introspect`. -/
inductive TransportOutcome where
  | response (statusCode : Nat) (body : IntrospectBody)
  | connectError
  | timeoutError
  | otherError
  deriving Repr, DecidableEq

/-- `AuthServiceClient.introspect_token` (`app/clients/auth_client.py`):
200 returns the body unchanged; any other status yields
`{"active": False, "reason": "service_error"}`; `ConnectError`, a timeout and
any other exception yield `active=False` with reasons `"connection_error"`,
`"timeout"` and `"unknown_error"`. -/
def introspect_token (outcome : TransportOutcome) : IntrospectBody :=
  match outcome with
  | .response 200 body => body
  | .response _ _ => ⟨false, some "service_error", none⟩
  | .connectError => ⟨false, some "connection_error", none⟩
  | .timeoutError => ⟨false, some "timeout", none⟩
  | .otherError => ⟨false, some "unknown_error", none⟩

/-- The fixed 401 raised by `get_current_user`
(`app/auth/dependencies.py`) for every credential failure. -/
def credentialsException : Err :=
  ⟨401, "Could not validate credentials. Make sure AUTH_SERVICE_URL is configured."⟩

/-- The 503 raised by `get_current_user` when no auth client is configured. -/
def authServiceNotConfigured : Err :=
  ⟨503, "Authentication service not configured. Contact administrator."⟩

/-- `get_current_user` (`app/auth/dependencies.py`): 401 when the cookie is
absent; 503 when `AUTH_SERVICE_URL` is unconfigured; otherwise the remote
introspection result decides — `active=False` (whatever the reason), a missing
`sub` claim, or any exception all map to the same 401. -/
def get_current_user (accessToken : Option String) (clientConfigured : Bool)
    (outcome : TransportOutcome) : Except Err String :=
  match accessToken with
  | none => .error credentialsException
  | some _ =>
    if !clientConfigured then
      .error authServiceNotConfigured
    else
      let result := introspect_token outcome
      if !result.active then
        .error credentialsException
      else
        match result.claimsSub with
        | none => .error credentialsException
        | some userId => .ok userId

/-! ## Internal relation check (`app/controllers/internal_controller.py`) -/

/-- The response body of `GET /internal/check-user-property-relation`
(the echoed `user_id` / `owner_id` strings are omitted). -/
structure RelationResponse where
  has_relation : Bool
  has_visit : Bool
  has_proposal : Bool
  deriving Repr, DecidableEq

/-- The visit-side join of the endpoint: some `Visit` row by `user_id` joined
to a `Property` row owned by `owner_id`. -/
def hasVisitRelation (db : DB) (userId ownerId : Nat) : Bool :=
  db.visits.any fun v =>
    v.idUser == userId &&
      db.properties.any (fun pr => pr.id == v.idProperty &&
        pr.idPropertyOwner == ownerId)

/-- The proposal-side join of the endpoint. -/
def hasProposalRelation (db : DB) (userId ownerId : Nat) : Bool :=
  db.proposals.any fun p =>
    p.idUser == userId &&
      db.properties.any (fun pr => pr.id == p.idProperty &&
        pr.idPropertyOwner == ownerId)

/-- `check_user_property_relation`: 401 unless `X-Internal-Secret` equals the
configured `INTERNAL_API_SECRET`; then the two joins and their disjunction. -/
def check_user_property_relation (xInternalSecret configuredSecret : String)
    (userId ownerId : Nat) (db : DB) : Except Err RelationResponse :=
  if xInternalSecret ≠ configuredSecret then
    .error ⟨401, "Invalid internal API secret"⟩
  else
    let has_visit := hasVisitRelation db userId ownerId
    let has_proposal := hasProposalRelation db userId ownerId
    .ok ⟨has_visit || has_proposal, has_visit, has_proposal⟩

/-! ## Owner-listing enrichment (`app/auth/auth_client.py`,
`app/controllers/visit_controller.py`)

`AuthClient.get_user_info` is defined with the single parameter `user_id`
besides `self`, and its body unconditionally returns `None` (the real lookup is
a commented-out TODO).  Its call sites in `get_my_properties_visits` and
`get_received_proposals` pass TWO positional arguments,
`(str(visit.idUser), access_token)`.  Python resolves argument counts at call
time, so the binding itself is modelled: a bound-method call with a wrong
number of positional arguments raises `TypeError` before the body runs. -/

/-- The positional parameters of `AuthClient.get_user_info` besides `self`,
as written in `app/auth/auth_client.py`. -/
def getUserInfoParams : List String := ["user_id"]

/-- Errors a dynamic Python call can surface. -/
inductive PyError where
  | typeError
  deriving Repr, DecidableEq

/-- User info payload (contents irrelevant here — the stub never produces one). -/
structure UserInfo where
  userId : String
  deriving Repr, DecidableEq

/-- A bound call of `AuthClient.get_user_info` with the given positional
arguments: `TypeError` when the count does not match the definition's parameter
list, otherwise the body runs — which is just `return None`. -/
def callGetUserInfo (args : List String) : Except PyError (Option UserInfo) :=
  if args.length ≠ getUserInfoParams.length then .error .typeError
  else .ok none

/-- The enrichment loop of `get_my_properties_visits`
(`app/controllers/visit_controller.py`, lines 389–394): for each visit of the
page, `user_info = await auth_client.get_user_info(str(visit.idUser),
access_token)`, pairing the visit with its (optional) user info; an uncaught
exception in any iteration aborts the whole request. -/
def enrichVisitsPage (visits : List Visit) (accessToken : String) :
    Except PyError (List (Visit × Option UserInfo)) :=
  visits.mapM fun v =>
    (callGetUserInfo [toString v.idUser, accessToken]).map (fun u => (v, u))

/-! ## Visit lifecycle reachability

A reachable store is one produced from some initial store by the visit
operations the service exposes; a failed operation (an `error` result) leaves
the store as it was, since the session is never committed. -/

/-- The visit operations of `VisitService`, with the request-supplied data. -/
inductive VisitOp where
  | createOp (idProperty : Nat) (visitDate : Int) (notes : Option String)
      (userId : Nat) (now : Int) (newId : Nat)
  | updateOp (visitId : Nat) (upd : UpdateVisitRequest) (userId : Nat)
  | completeOp (visitId userId : Nat) (notes : Option String)
  | cancelOp (visitId userId : Nat) (reason : Option String)
  | deleteOp (visitId userId : Nat)

/-- One request against the visit service: the committed store on success, the
unchanged store on an HTTP error. -/
def applyVisitOp (db : DB) : VisitOp → DB
  | .createOp pid d n u now id =>
    match create_visit_endpoint db pid d n u now id with
    | .ok (db', _) => db'
    | .error _ => db
  | .updateOp vid upd uid =>
    match update_visit db vid upd uid with
    | .ok (db', _) => db'
    | .error _ => db
  | .completeOp vid uid n =>
    match complete_visit_service db vid uid n with
    | .ok (db', _) => db'
    | .error _ => db
  | .cancelOp vid uid r =>
    match cancel_visit_service db vid uid r with
    | .ok (db', _) => db'
    | .error _ => db
  | .deleteOp vid uid =>
    match delete_visit_service db vid uid with
    | .ok db' => db'
    | .error _ => db

/-- No visit row is simultaneously completed and cancelled. -/
def NotBothFlags (db : DB) : Prop :=
  ∀ v ∈ db.visits, ¬(v.isVisitCompleted = true ∧ v.cancelled = true)

/-- The request aborted with a raised `HTTPException` (no commit happened). -/
def isHttpError {α : Type} : Except Err α → Bool
  | .error _ => true
  | .ok _ => false

/-- At most one `PENDING` proposal row per (requester, property) pair. -/
def AtMostOnePendingPerPair (db : DB) : Prop :=
  ∀ u pid : Nat,
    (db.proposals.filter fun p =>
      p.idUser == u && p.idProperty == pid &&
        p.status == ProposalStatusEnum.pending).length ≤ 1

/-! ## Theorems -/

/-- Inserting a row that does not carry both flags preserves `NotBothFlags`. -/
theorem notBothFlags_insertVisit {db : DB} {v : Visit}
    (h : NotBothFlags db)
    (hv : ¬(v.isVisitCompleted = true ∧ v.cancelled = true)) :
    NotBothFlags (insertVisit db v) := by
  intro w hw
  rcases List.mem_append.mp hw with hmem | hmem
  · exact h w hmem
  · rw [List.mem_singleton] at hmem
    exact hmem ▸ hv

/-- Committing a row that does not carry both flags preserves `NotBothFlags`. -/
theorem notBothFlags_commitVisit {db : DB} {v : Visit}
    (h : NotBothFlags db)
    (hv : ¬(v.isVisitCompleted = true ∧ v.cancelled = true)) :
    NotBothFlags (commitVisit db v) := by
  intro w hw
  obtain ⟨a, ha, hfa⟩ := List.mem_map.mp hw
  split at hfa
  · exact hfa ▸ hv
  · exact hfa ▸ h a ha

/-- Deleting a row preserves `NotBothFlags`. -/
theorem notBothFlags_deleteVisitRow {db : DB} {v : Visit}
    (h : NotBothFlags db) : NotBothFlags (deleteVisitRow db v) := by
  intro w hw
  exact h w (List.mem_filter.mp hw).1

/-- `applyNotes` never touches the two lifecycle flags. -/
theorem applyNotes_flags (v : Visit) (notes : Option String) :
    (applyNotes v notes).isVisitCompleted = v.isVisitCompleted ∧
    (applyNotes v notes).cancelled = v.cancelled := by
  cases notes <;> simp [applyNotes]

/-- A successful `create_visit_endpoint` inserts a freshly scheduled row:
both lifecycle flags are false. -/
theorem create_visit_endpoint_ok_shape {db db' : DB} {v : Visit}
    {idProperty : Nat} {visitDate : Int} {notes : Option String}
    {userId : Nat} {now : Int} {newId : Nat}
    (h : create_visit_endpoint db idProperty visitDate notes userId now newId =
      .ok (db', v)) :
    db' = insertVisit db v ∧ v.isVisitCompleted = false ∧ v.cancelled = false := by
  unfold create_visit_endpoint at h
  split at h
  · cases h
  · unfold create_visit at h
    split at h
    · cases h
    · rw [Except.ok.injEq, Prod.mk.injEq] at h
      obtain ⟨hdb, hv⟩ := h
      subst hdb
      subst hv
      exact ⟨rfl, rfl, rfl⟩

/-- A successful `update_visit` commits a row whose lifecycle flags are both
false (the 400 guards reject completed and cancelled visits beforehand, and
neither rescheduling nor a notes update touches the flags). -/
theorem update_visit_ok_shape {db db' : DB} {v : Visit}
    {visitId : Nat} {upd : UpdateVisitRequest} {userId : Nat}
    (h : update_visit db visitId upd userId = .ok (db', v)) :
    db' = commitVisit db v ∧ v.isVisitCompleted = false ∧ v.cancelled = false := by
  unfold update_visit at h
  split at h
  · cases h
  · rename_i visit hfind
    split at h
    · cases h
    · split at h
      · cases h
      · rename_i hcomp
        split at h
        · cases h
        · rename_i hcanc
          rw [Bool.not_eq_true] at hcomp hcanc
          split at h
          · split at h
            · cases h
            · rw [Except.ok.injEq, Prod.mk.injEq] at h
              obtain ⟨hdb, hv⟩ := h
              subst hdb
              subst hv
              refine ⟨rfl, ?_, ?_⟩
              · rw [(applyNotes_flags _ _).1]; exact hcomp
              · rw [(applyNotes_flags _ _).2]; exact hcanc
          · rw [Except.ok.injEq, Prod.mk.injEq] at h
            obtain ⟨hdb, hv⟩ := h
            subst hdb
            subst hv
            refine ⟨rfl, ?_, ?_⟩
            · rw [(applyNotes_flags _ _).1]; exact hcomp
            · rw [(applyNotes_flags _ _).2]; exact hcanc

/-- A successful `complete_visit_service` commits a row that is completed but
not cancelled. -/
theorem complete_visit_ok_shape {db db' : DB} {v : Visit}
    {visitId userId : Nat} {notes : Option String}
    (h : complete_visit_service db visitId userId notes = .ok (db', v)) :
    db' = commitVisit db v ∧ v.cancelled = false := by
  unfold complete_visit_service at h
  split at h
  · cases h
  · rename_i visit hfind
    split at h
    · cases h
    · split at h
      · cases h
      · rename_i v0 heq
        rw [Except.ok.injEq, Prod.mk.injEq] at h
        obtain ⟨hdb, hv⟩ := h
        subst hdb
        subst hv
        unfold Visit.complete_visit at heq
        split at heq
        · cases heq
        · split at heq
          · cases heq
          · rename_i hcanc
            rw [Bool.not_eq_true] at hcanc
            refine ⟨rfl, ?_⟩
            rw [← Except.ok.inj heq]
            exact hcanc

/-- A successful `cancel_visit_service` commits a row that is cancelled but
not completed. -/
theorem cancel_visit_ok_shape {db db' : DB} {v : Visit}
    {visitId userId : Nat} {reason : Option String}
    (h : cancel_visit_service db visitId userId reason = .ok (db', v)) :
    db' = commitVisit db v ∧ v.isVisitCompleted = false := by
  unfold cancel_visit_service at h
  split at h
  · cases h
  · rename_i visit hfind
    split at h
    · cases h
    · split at h
      · cases h
      · rename_i v0 heq
        rw [Except.ok.injEq, Prod.mk.injEq] at h
        obtain ⟨hdb, hv⟩ := h
        subst hdb
        subst hv
        unfold Visit.cancel_visit at heq
        split at heq
        · cases heq
        · rename_i hcomp
          split at heq
          · cases heq
          · rw [Bool.not_eq_true] at hcomp
            refine ⟨rfl, ?_⟩
            rw [← Except.ok.inj heq]
            exact hcomp

/-- A successful `delete_visit_service` filters rows out of the store. -/
theorem delete_visit_ok_shape {db db' : DB} {visitId userId : Nat}
    (h : delete_visit_service db visitId userId = .ok db') :
    ∃ v, db' = deleteVisitRow db v := by
  unfold delete_visit_service at h
  split at h
  · cases h
  · split at h
    · cases h
    · exact ⟨_, (Except.ok.inj h).symm⟩

/-- C1 (counterexample): a timeout of the remote introspection call is reported
as the 401 `credentials_exception` — the very same error an invalid/rejected
token produces — and not as a 503 `ServiceUnavailable`.
`AuthServiceClient.introspect_token` swallows `httpx.TimeoutException` into
`{"active": False, "reason": "timeout"}` and `get_current_user` maps every
inactive result to the fixed 401. -/
theorem introspection_timeout_maps_to_401 :
    get_current_user (some "tok") true TransportOutcome.timeoutError =
      .error credentialsException ∧
    credentialsException.statusCode = 401 ∧
    get_current_user (some "tok") true TransportOutcome.timeoutError ≠
      .error authServiceNotConfigured := by
  refine ⟨rfl, rfl, ?_⟩
  intro h
  exact absurd (Except.error.inj h) (by decide)

/-- C1 (amended): when the introspection call times out or the identity service
is unreachable, `get_current_user` fails with the same 401
`credentials_exception` used for a rejected token; the 503
`ServiceUnavailable` class occurs only when `AUTH_SERVICE_URL` is not
configured. -/
theorem timeout_reported_as_unauthenticated :
    ∀ tok : String,
      get_current_user (some tok) true TransportOutcome.timeoutError =
        .error credentialsException ∧
      get_current_user (some tok) true TransportOutcome.connectError =
        .error credentialsException ∧
      get_current_user (some tok) true
          (TransportOutcome.response 200 ⟨false, some "invalid_or_expired", none⟩) =
        .error credentialsException ∧
      (∀ outcome, get_current_user (some tok) false outcome =
        .error authServiceNotConfigured) ∧
      credentialsException.statusCode = 401 ∧
      authServiceNotConfigured.statusCode = 503 := by
  intro tok
  refine ⟨rfl, rfl, rfl, fun outcome => rfl, rfl, rfl⟩

/-- C6 (counterexample): a visit whose `visitDate` equals the wall-clock `now`
passes `validate_visit_date` (the source only raises on `v < datetime.now()`)
and the visit IS created, contradicting "accepted only if strictly in the
future". -/
theorem visit_date_equal_now_accepted :
    validate_visit_date 5 5 = Except.ok 5 ∧
    create_visit_endpoint ⟨[⟨1, 7⟩], [], []⟩ 1 5 none 42 5 99 =
      Except.ok (⟨[⟨1, 7⟩], [],
        [⟨99, 1, 42, 5, false, false, none, none⟩]⟩,
        ⟨99, 1, 42, 5, false, false, none, none⟩) := by
  exact ⟨rfl, rfl⟩

/-- C6 (amended): `validate_visit_date` rejects a `visitDate` exactly when it is
strictly before `now` (a date equal to `now` is accepted), and on rejection the
creation pipeline aborts with a `ValidationError` and no visit row is inserted. -/
theorem visit_date_past_rejected (v now : Int) :
    (v < now →
      validate_visit_date v now = .error "Visit date must be in the future" ∧
      ∀ (db : DB) (idProperty : Nat) (notes : Option String)
        (userId newId : Nat),
        create_visit_endpoint db idProperty v notes userId now newId =
          .error ⟨422, "Visit date must be in the future"⟩) ∧
    (now ≤ v → validate_visit_date v now = .ok v) := by
  constructor
  · intro hlt
    constructor
    · simp [validate_visit_date, hlt]
    · intro db idProperty notes userId newId
      simp [create_visit_endpoint, validate_visit_date, hlt]
  · intro hle
    simp [validate_visit_date, not_lt.mpr hle]

/-- C6 witness: the amended theorem applied at `v = 3`, `now = 5`. -/
theorem visit_date_past_rejected_witness :
    validate_visit_date 3 5 = .error "Visit date must be in the future" ∧
    create_visit_endpoint ⟨[⟨1, 7⟩], [], []⟩ 1 3 none 42 5 99 =
      .error ⟨422, "Visit date must be in the future"⟩ ∧
    validate_visit_date 7 5 = .ok 7 := by
  have h1 := (visit_date_past_rejected 3 5).1 (by decide)
  have h2 := (visit_date_past_rejected 7 5).2 (by decide)
  exact ⟨h1.1, h1.2 ⟨[⟨1, 7⟩], [], []⟩ 1 none 42 99, h2⟩

/-- C7: the internal relation-check endpoint fails 401 exactly when the
`X-Internal-Secret` header differs from the configured secret; on a match it
returns `has_visit` true iff some visit by `user_id` exists on a property owned
by `owner_id`, `has_proposal` likewise for proposals, and
`has_relation = has_visit || has_proposal`. -/
theorem internal_relation_check_contract (g c : String) (u o : Nat) (db : DB) :
    (g ≠ c → check_user_property_relation g c u o db =
      .error ⟨401, "Invalid internal API secret"⟩) ∧
    (g = c →
      check_user_property_relation g c u o db =
        .ok ⟨hasVisitRelation db u o || hasProposalRelation db u o,
             hasVisitRelation db u o, hasProposalRelation db u o⟩ ∧
      (hasVisitRelation db u o = true ↔
        ∃ v ∈ db.visits, v.idUser = u ∧
          ∃ pr ∈ db.properties, pr.id = v.idProperty ∧ pr.idPropertyOwner = o) ∧
      (hasProposalRelation db u o = true ↔
        ∃ p ∈ db.proposals, p.idUser = u ∧
          ∃ pr ∈ db.properties, pr.id = p.idProperty ∧ pr.idPropertyOwner = o)) := by
  constructor
  · intro hne
    simp [check_user_property_relation, hne]
  · intro heq
    subst heq
    refine ⟨by simp [check_user_property_relation], ?_, ?_⟩
    · simp [hasVisitRelation, List.any_eq_true, Bool.and_eq_true, beq_iff_eq]
    · simp [hasProposalRelation, List.any_eq_true, Bool.and_eq_true, beq_iff_eq]

/-- C7 witness: the contract applied to a concrete store — a wrong secret gets
401; the right secret reports the visit-relation between user 42 and owner 7. -/
theorem internal_relation_check_contract_witness :
    check_user_property_relation "bad" "sec" 42 7
        ⟨[⟨1, 7⟩], [], [⟨99, 1, 42, 5, false, false, none, none⟩]⟩ =
      .error ⟨401, "Invalid internal API secret"⟩ ∧
    check_user_property_relation "sec" "sec" 42 7
        ⟨[⟨1, 7⟩], [], [⟨99, 1, 42, 5, false, false, none, none⟩]⟩ =
      .ok ⟨true, true, false⟩ := by
  constructor
  · exact (internal_relation_check_contract "bad" "sec" 42 7 _).1 (by decide)
  · have h := ((internal_relation_check_contract "sec" "sec" 42 7
      ⟨[⟨1, 7⟩], [], [⟨99, 1, 42, 5, false, false, none, none⟩]⟩).2 rfl).1
    simpa using h

/-- C8: proposing on one's own property fails with the 400 business-rule error
and no proposal is created (an `error` result aborts the request before any
insert); the property-existence check comes first, so an absent property yields
404 `NotFound` instead. -/
theorem own_property_proposal_rejected (db : DB)
    (req : CreateProposalRequest) (userId : Nat) (now : Int) (newId : Nat) :
    (getPropertyOwnerId db req.idProperty = some userId →
      create_proposal db req userId now newId =
        .error ⟨400, "You cannot make a proposal on your own property"⟩) ∧
    (getPropertyOwnerId db req.idProperty = none →
      create_proposal db req userId now newId =
        .error ⟨404, "Property not found"⟩) := by
  constructor
  · intro hown
    simp [create_proposal, hown]
  · intro hnone
    simp [create_proposal, hnone]

/-- C8 witness: user 7 owns property 1 and proposes on it → 400; property 2
does not exist → 404. -/
theorem own_property_proposal_rejected_witness :
    create_proposal ⟨[⟨1, 7⟩], [], []⟩ ⟨1, 1000, none⟩ 7 0 50 =
      .error ⟨400, "You cannot make a proposal on your own property"⟩ ∧
    create_proposal ⟨[⟨1, 7⟩], [], []⟩ ⟨2, 1000, none⟩ 7 0 50 =
      .error ⟨404, "Property not found"⟩ := by
  constructor
  · exact (own_property_proposal_rejected ⟨[⟨1, 7⟩], [], []⟩ ⟨1, 1000, none⟩
      7 0 50).1 (by decide)
  · exact (own_property_proposal_rejected ⟨[⟨1, 7⟩], [], []⟩ ⟨2, 1000, none⟩
      7 0 50).2 (by decide)

/-- C4: accepting a proposal whose `expires_at` lies strictly in the past while
its stored status still reads `PENDING` fails with the 400 invalid-state error
("Proposal has expired"); the expiry is evaluated at transition time against
the server clock `now`, and the `error` result means nothing is committed, so
the stored status remains `PENDING`. -/
theorem accept_expired_pending_fails (db : DB) (proposalId ownerId : Nat)
    (now : Int) (msg : Option String) (p : Proposal)
    (hfind : getProposalById db proposalId = some p)
    (hpending : p.status = .pending)
    (hown : getPropertyOwnerId db p.idProperty = some ownerId)
    (hexp : p.expires_at < now) :
    accept_proposal db proposalId ownerId now msg =
      .error ⟨400, "Proposal has expired"⟩ := by
  simp [accept_proposal, hfind, hown, Proposal.accept, hpending, hexp]

/-- C4 witness: a pending proposal that expired at time 10, accepted by its
owner at time 20. -/
theorem accept_expired_pending_fails_witness :
    accept_proposal
        ⟨[⟨1, 7⟩], [⟨5, 1, 42, 1000, 0, .pending, none, none, none, 10⟩], []⟩
        5 7 20 none =
      .error ⟨400, "Proposal has expired"⟩ :=
  accept_expired_pending_fails _ 5 7 20 none
    ⟨5, 1, 42, 1000, 0, .pending, none, none, none, 10⟩
    (by decide) rfl (by decide) (by decide)

/-- C5: `accept` and `reject` fail 403 whenever the acting principal is not the
resolved owner of the referenced property (including when the property no
longer resolves), and `withdraw` fails 403 whenever the acting principal is not
the proposal's original requester; each `error` result aborts the request
before any commit, so the proposal row is unchanged. -/
theorem proposal_transition_authorization (db : DB) (proposalId actor : Nat)
    (now : Int) (msg : Option String) (p : Proposal)
    (hfind : getProposalById db proposalId = some p) :
    (getPropertyOwnerId db p.idProperty ≠ some actor →
      accept_proposal db proposalId actor now msg =
        .error ⟨403, "Only the property owner can accept proposals"⟩) ∧
    (getPropertyOwnerId db p.idProperty ≠ some actor →
      reject_proposal db proposalId actor now msg =
        .error ⟨403, "Only the property owner can reject proposals"⟩) ∧
    (p.idUser ≠ actor →
      withdraw_proposal db proposalId actor =
        .error ⟨403, "You can only withdraw your own proposals"⟩) := by
  refine ⟨fun hne => ?_, fun hne => ?_, fun hne => ?_⟩
  · simp [accept_proposal, hfind, hne]
  · simp [reject_proposal, hfind, hne]
  · simp [withdraw_proposal, hfind, hne]

/-- C5 witness: owner of property 1 is user 7; user 8 may neither accept nor
reject proposal 5, and user 9 may not withdraw it (requester is 42). -/
theorem proposal_transition_authorization_witness :
    accept_proposal
        ⟨[⟨1, 7⟩], [⟨5, 1, 42, 1000, 0, .pending, none, none, none, 10⟩], []⟩
        5 8 3 none =
      .error ⟨403, "Only the property owner can accept proposals"⟩ ∧
    reject_proposal
        ⟨[⟨1, 7⟩], [⟨5, 1, 42, 1000, 0, .pending, none, none, none, 10⟩], []⟩
        5 8 3 none =
      .error ⟨403, "Only the property owner can reject proposals"⟩ ∧
    withdraw_proposal
        ⟨[⟨1, 7⟩], [⟨5, 1, 42, 1000, 0, .pending, none, none, none, 10⟩], []⟩
        5 9 =
      .error ⟨403, "You can only withdraw your own proposals"⟩ := by
  have h := proposal_transition_authorization
    ⟨[⟨1, 7⟩], [⟨5, 1, 42, 1000, 0, .pending, none, none, none, 10⟩], []⟩
    5 8 3 none ⟨5, 1, 42, 1000, 0, .pending, none, none, none, 10⟩ (by decide)
  have h9 := proposal_transition_authorization
    ⟨[⟨1, 7⟩], [⟨5, 1, 42, 1000, 0, .pending, none, none, none, 10⟩], []⟩
    5 9 3 none ⟨5, 1, 42, 1000, 0, .pending, none, none, none, 10⟩ (by decide)
  exact ⟨h.1 (by decide), h.2.1 (by decide), h9.2.2 (by decide)⟩

/-- C9 (code evaluated at the failing input): enriching any non-empty page of
visits raises `TypeError` — `get_my_properties_visits` calls
`auth_client.get_user_info(str(visit.idUser), access_token)` with two
positional arguments while `AuthClient.get_user_info` accepts only `user_id`,
so the listing aborts instead of degrading the `user` field to `None`. -/
theorem enrichment_call_arity_type_error :
    enrichVisitsPage [⟨99, 1, 42, 5, false, false, none, none⟩] "tok" =
      .error .typeError ∧
    callGetUserInfo [toString 42, "tok"] = .error .typeError ∧
    callGetUserInfo [toString 42] = .ok none := by
  exact ⟨rfl, rfl, rfl⟩

/-- C10: a status filter string naming no valid proposal status is silently
ignored by all three proposal listing queries (`ValueError` from
`ProposalStatusEnum(status)` is swallowed by `pass`): the result — rows, order
and total count — equals the unfiltered listing. -/
theorem invalid_status_filter_ignored (db : DB) (userId propertyId ownerId : Nat)
    (page size : Nat) (s : String)
    (hs : parseProposalStatus s = none) :
    get_by_user db userId page size (some s) =
      get_by_user db userId page size none ∧
    get_by_property db propertyId page size (some s) =
      get_by_property db propertyId page size none ∧
    get_by_property_owner db ownerId page size (some s) =
      get_by_property_owner db ownerId page size none := by
  have hfilter : ∀ q : List Proposal, applyStatusFilter q (some s) = q := by
    intro q
    by_cases hempty : s = ""
    · simp [applyStatusFilter, hempty]
    · simp [applyStatusFilter, hempty, hs]
  have hnone : ∀ q : List Proposal, applyStatusFilter q none = q := fun _ => rfl
  refine ⟨?_, ?_, ?_⟩ <;>
    simp only [get_by_user, get_by_property, get_by_property_owner, hfilter,
      hnone]

/-- C10 witness: the filter string "bogus" names no status and the listings
coincide with the unfiltered ones on a two-proposal store. -/
theorem invalid_status_filter_ignored_witness :
    get_by_user
        ⟨[⟨1, 7⟩], [⟨5, 1, 42, 1000, 0, .pending, none, none, none, 10⟩,
          ⟨6, 1, 42, 900, 1, .rejected, none, none, none, 11⟩], []⟩
        42 1 10 (some "bogus") =
      get_by_user
        ⟨[⟨1, 7⟩], [⟨5, 1, 42, 1000, 0, .pending, none, none, none, 10⟩,
          ⟨6, 1, 42, 900, 1, .rejected, none, none, none, 11⟩], []⟩
        42 1 10 none :=
  (invalid_status_filter_ignored _ 42 1 7 1 10 "bogus" (by decide)).1

/-- C3: a visit in a terminal state (`is_completed` or `is_cancelled`) rejects
reschedule/update, complete and cancel — each request aborts with an HTTP
error, so no commit changes the flags — and, consequently, no store reachable
through the visit operations ever holds a visit that is both completed and
cancelled. -/
theorem visit_terminal_immutability :
    (∀ (db : DB) (visitId : Nat) (v : Visit),
      getVisitById db visitId = some v →
      v.isVisitCompleted = true ∨ v.cancelled = true →
      (∀ (upd : UpdateVisitRequest) (userId : Nat),
        isHttpError (update_visit db visitId upd userId) = true) ∧
      (∀ (userId : Nat) (notes : Option String),
        isHttpError (complete_visit_service db visitId userId notes) = true) ∧
      (∀ (userId : Nat) (reason : Option String),
        isHttpError (cancel_visit_service db visitId userId reason) = true)) ∧
    (∀ (db : DB) (op : VisitOp),
      NotBothFlags db → NotBothFlags (applyVisitOp db op)) := by
  constructor
  · intro db visitId v hfind hterm
    refine ⟨fun upd userId => ?_, fun userId notes => ?_, fun userId reason => ?_⟩
    · by_cases hu : v.idUser ≠ userId
      · simp [isHttpError, update_visit, hfind, hu]
      · by_cases hcomp : v.isVisitCompleted = true
        · simp [isHttpError, update_visit, hfind, hu, hcomp]
        · have hcanc : v.cancelled = true := hterm.resolve_left hcomp
          simp [isHttpError, update_visit, hfind, hu, hcomp, hcanc]
    · by_cases hu : v.idUser ≠ userId
      · simp [isHttpError, complete_visit_service, hfind, hu]
      · by_cases hcomp : v.isVisitCompleted = true
        · simp [isHttpError, complete_visit_service, hfind, hu,
            Visit.complete_visit, hcomp]
        · have hcanc : v.cancelled = true := hterm.resolve_left hcomp
          simp [isHttpError, complete_visit_service, hfind, hu,
            Visit.complete_visit, hcomp, hcanc]
    · by_cases hu : v.idUser ≠ userId
      · simp [isHttpError, cancel_visit_service, hfind, hu]
      · by_cases hcomp : v.isVisitCompleted = true
        · simp [isHttpError, cancel_visit_service, hfind, hu,
            Visit.cancel_visit, hcomp]
        · have hcanc : v.cancelled = true := hterm.resolve_left hcomp
          simp [isHttpError, cancel_visit_service, hfind, hu,
            Visit.cancel_visit, hcomp, hcanc]
  · intro db op hinv
    cases op with
    | createOp pid d n u now id =>
      cases hres : create_visit_endpoint db pid d n u now id with
      | error e => simpa only [applyVisitOp, hres] using hinv
      | ok pair =>
        obtain ⟨db', vnew⟩ := pair
        obtain ⟨hdb, hc, hx⟩ := create_visit_endpoint_ok_shape hres
        simp only [applyVisitOp, hres]
        rw [hdb]
        exact notBothFlags_insertVisit hinv (by simp [hc, hx])
    | updateOp vid upd uid =>
      cases hres : update_visit db vid upd uid with
      | error e => simpa only [applyVisitOp, hres] using hinv
      | ok pair =>
        obtain ⟨db', v2⟩ := pair
        obtain ⟨hdb, hc, hx⟩ := update_visit_ok_shape hres
        simp only [applyVisitOp, hres]
        rw [hdb]
        exact notBothFlags_commitVisit hinv (by simp [hc, hx])
    | completeOp vid uid n =>
      cases hres : complete_visit_service db vid uid n with
      | error e => simpa only [applyVisitOp, hres] using hinv
      | ok pair =>
        obtain ⟨db', v2⟩ := pair
        obtain ⟨hdb, hx⟩ := complete_visit_ok_shape hres
        simp only [applyVisitOp, hres]
        rw [hdb]
        exact notBothFlags_commitVisit hinv (by simp [hx])
    | cancelOp vid uid r =>
      cases hres : cancel_visit_service db vid uid r with
      | error e => simpa only [applyVisitOp, hres] using hinv
      | ok pair =>
        obtain ⟨db', v2⟩ := pair
        obtain ⟨hdb, hx⟩ := cancel_visit_ok_shape hres
        simp only [applyVisitOp, hres]
        rw [hdb]
        exact notBothFlags_commitVisit hinv (by simp [hx])
    | deleteOp vid uid =>
      cases hres : delete_visit_service db vid uid with
      | error e => simpa only [applyVisitOp, hres] using hinv
      | ok db' =>
        obtain ⟨v2, hdb⟩ := delete_visit_ok_shape hres
        simp only [applyVisitOp, hres]
        rw [hdb]
        exact notBothFlags_deleteVisitRow hinv

/-- C3 witness: visit 99 is completed; its requester 42 can neither update,
complete nor cancel it, and completing it (a no-op failure) preserves the
never-both-flags invariant. -/
theorem visit_terminal_immutability_witness :
    isHttpError (update_visit
      ⟨[⟨1, 7⟩], [], [⟨99, 1, 42, 5, true, false, none, none⟩]⟩
      99 ⟨none, none⟩ 42) = true ∧
    isHttpError (complete_visit_service
      ⟨[⟨1, 7⟩], [], [⟨99, 1, 42, 5, true, false, none, none⟩]⟩
      99 42 none) = true ∧
    isHttpError (cancel_visit_service
      ⟨[⟨1, 7⟩], [], [⟨99, 1, 42, 5, true, false, none, none⟩]⟩
      99 42 none) = true ∧
    NotBothFlags (applyVisitOp
      ⟨[⟨1, 7⟩], [], [⟨99, 1, 42, 5, true, false, none, none⟩]⟩
      (.completeOp 99 42 none)) := by
  have h1 := visit_terminal_immutability.1
    ⟨[⟨1, 7⟩], [], [⟨99, 1, 42, 5, true, false, none, none⟩]⟩
    99 ⟨99, 1, 42, 5, true, false, none, none⟩ (by decide) (Or.inl rfl)
  have h2 := visit_terminal_immutability.2
    ⟨[⟨1, 7⟩], [], [⟨99, 1, 42, 5, true, false, none, none⟩]⟩
    (.completeOp 99 42 none)
    (by
      intro v hv
      rw [List.mem_singleton] at hv
      subst hv
      simp)
  exact ⟨h1.1 ⟨none, none⟩ 42, h1.2.1 42 none, h1.2.2 42 none, h2⟩

/-- C2: when the requester already has a `PENDING` proposal on the property
(and the earlier guards pass: the property exists and the requester is not its
owner), `create_proposal` fails with the 409 `Conflict` and — an `error` result
aborting the request before any insert — no new proposal is stored; moreover a
successful `create_proposal` preserves "at most one `PENDING` proposal per
(requester, property) pair". -/
theorem single_pending_proposal_invariant :
    (∀ (db : DB) (req : CreateProposalRequest) (userId : Nat) (now : Int)
        (newId ownerId : Nat),
      getPropertyOwnerId db req.idProperty = some ownerId →
      ownerId ≠ userId →
      check_duplicate_proposal db userId req.idProperty = true →
      create_proposal db req userId now newId =
        .error ⟨409, "You already have a pending proposal for this property"⟩) ∧
    (∀ (db : DB) (req : CreateProposalRequest) (userId : Nat) (now : Int)
        (newId : Nat) (db' : DB) (p : Proposal),
      AtMostOnePendingPerPair db →
      create_proposal db req userId now newId = .ok (db', p) →
      AtMostOnePendingPerPair db') := by
  constructor
  · intro db req userId now newId ownerId hown hne hdup
    simp [create_proposal, hown, hne, hdup]
  · intro db req userId now newId db' p hinv hok
    unfold create_proposal at hok
    split at hok
    · cases hok
    · rename_i ownerId hown
      split at hok
      · cases hok
      · split at hok
        · cases hok
        · rename_i hne hdup
          rw [Except.ok.injEq, Prod.mk.injEq] at hok
          obtain ⟨hdb, hp⟩ := hok
          subst hdb
          intro u pid
          rw [Bool.not_eq_true] at hdup
          unfold check_duplicate_proposal at hdup
          simp only [insertProposal, List.filter_append, List.length_append]
          by_cases hu : userId = u
          · by_cases hpid : req.idProperty = pid
            · subst hu
              subst hpid
              have hnil : db.proposals.filter (fun q =>
                  q.idUser == userId && q.idProperty == req.idProperty &&
                    q.status == ProposalStatusEnum.pending) = [] := by
                rw [List.filter_eq_nil_iff]
                intro a ha hpa
                have htrue : (db.proposals.any fun q =>
                    q.idUser == userId && q.idProperty == req.idProperty &&
                      q.status == ProposalStatusEnum.pending) = true :=
                  List.any_eq_true.mpr ⟨a, ha, hpa⟩
                rw [hdup] at htrue
                cases htrue
              rw [hnil]
              simp [List.filter]
            · have : (req.idProperty == pid) = false := by
                simp [hpid]
              simp only [List.filter, this, Bool.and_false, Bool.false_and,
                List.length_nil]
              simpa using hinv u pid
          · have : (userId == u) = false := by
              simp [hu]
            simp only [List.filter, this, Bool.and_false, Bool.false_and,
              List.length_nil]
            simpa using hinv u pid

/-- C2 witness: user 42 already has pending proposal 5 on property 1 (owned by
user 7); a second creation attempt gets the 409 `Conflict`, and a successful
creation on an empty store keeps the one-pending-per-pair invariant. -/
theorem single_pending_proposal_invariant_witness :
    create_proposal
        ⟨[⟨1, 7⟩], [⟨5, 1, 42, 1000, 0, .pending, none, none, none, 10⟩], []⟩
        ⟨1, 2000, none⟩ 42 3 6 =
      .error ⟨409, "You already have a pending proposal for this property"⟩ ∧
    AtMostOnePendingPerPair
      ((create_proposal ⟨[⟨1, 7⟩], [], []⟩ ⟨1, 2000, none⟩ 42 3 6).toOption.elim
        ⟨[], [], []⟩ Prod.fst) := by
  constructor
  · exact single_pending_proposal_invariant.1
      ⟨[⟨1, 7⟩], [⟨5, 1, 42, 1000, 0, .pending, none, none, none, 10⟩], []⟩
      ⟨1, 2000, none⟩ 42 3 6 7 (by decide) (by decide) (by decide)
  · have hok : create_proposal ⟨[⟨1, 7⟩], [], []⟩ ⟨1, 2000, none⟩ 42 3 6 =
        .ok (⟨[⟨1, 7⟩],
          [⟨6, 1, 42, 2000, 3, .pending, none, none, none, 3 + proposalTTL⟩],
          []⟩,
          ⟨6, 1, 42, 2000, 3, .pending, none, none, none, 3 + proposalTTL⟩) := by
      rfl
    have h := single_pending_proposal_invariant.2
      ⟨[⟨1, 7⟩], [], []⟩ ⟨1, 2000, none⟩ 42 3 6 _ _
      (by intro u pid; simp) hok
    simpa [hok] using h

end SextoAndar
